import Mathlib

/-!
Verification of the sas7bdat-web SAS7BDAT reader (src/sas7bdat.js) against its
natural-language specification.  The definitions below are a shallow embedding
of the JavaScript source: byte buffers become `List Nat` (a JavaScript
`Buffer`/array read out of range yields `undefined`, which the arithmetic
coercions of the source turn into the byte 0, hence `List.getD _ _ 0`), thrown
exceptions become `Except` errors, and the IEEE-754 binary64 decode of
`struct_unpack` is abstracted to its result (`JSDouble`): either NaN or the
numeric value (the claims only exercise integral values).
-/

namespace Sas7bdat

/-- Errors thrown by `RLEDecompressor.decompress_row` (sas7bdat.js lines 231
and 238): an unknown control-byte high nibble, or a decompressed buffer whose
length differs from `result_length`. -/
inductive RLEError
  | unknownControlByte (control_byte : Nat)
  | lengthMismatch (got : Nat) (expected : Nat)
deriving DecidableEq, Repr

/-- Decidable equality for `Except`, used to evaluate concrete runs of the
embedded functions with `decide`. -/
def exceptDecEq {ε α : Type} [DecidableEq ε] [DecidableEq α] :
    (a b : Except ε α) → Decidable (a = b)
  | Except.error e, Except.error f =>
    match decEq e f with
    | isTrue h => isTrue (congrArg Except.error h)
    | isFalse h => isFalse (fun hh => h (Except.error.inj hh))
  | Except.error _, Except.ok _ => isFalse (fun hh => Except.noConfusion hh)
  | Except.ok _, Except.error _ => isFalse (fun hh => Except.noConfusion hh)
  | Except.ok a, Except.ok b =>
    match decEq a b with
    | isTrue h => isTrue (congrArg Except.ok h)
    | isFalse h => isFalse (fun hh => h (Except.ok.inj hh))

instance {ε α : Type} [DecidableEq ε] [DecidableEq α] : DecidableEq (Except ε α) :=
  exceptDecEq

/-- Reading `page[k]` in the source: a JavaScript `Buffer` indexed out of range
yields `undefined`, and both `undefined & mask` and
`String.fromCharCode(undefined)` behave as the byte 0. -/
def pageGet (page : List Nat) (k : Nat) : Nat := page.getD k 0

/-- JavaScript `page.slice(start, stop)`: the elements at positions
`start ≤ k < stop`, clamped to the buffer. -/
def pageSlice (page : List Nat) (start stop : Nat) : List Nat :=
  (page.take stop).drop start

/-- One iteration of the loop body of `RLEDecompressor.decompress_row`
(sas7bdat.js lines 144-233) at cursor `i`: dispatch on the control byte's high
nibble, returning the emitted bytes and the new cursor (the `i += 1` at line
233 is folded into every branch). -/
def rleStep (page : List Nat) (offset length i : Nat) :
    Except RLEError (List Nat × Nat) :=
  let control_byte := pageGet page (offset + i) &&& 0xF0
  let end_of_first_byte := pageGet page (offset + i) &&& 0x0F
  if control_byte = 0x00 then
    if i ≠ length - 1 then
      let count_of_bytes_to_copy :=
        (pageGet page (offset + i + 1) &&& 0xFF) + 64 + end_of_first_byte * 256
      Except.ok (pageSlice page (offset + i + 2) (offset + i + 2 + count_of_bytes_to_copy),
        i + count_of_bytes_to_copy + 1 + 1)
    else
      Except.ok ([], i + 1)
  else if control_byte = 0x40 then
    let copy_counter := end_of_first_byte * 16 + (pageGet page (offset + i + 1) &&& 0xFF)
    Except.ok (List.replicate (copy_counter + 18) (pageGet page (offset + i + 2)), i + 2 + 1)
  else if control_byte = 0x60 then
    Except.ok (List.replicate
      (end_of_first_byte * 256 + (pageGet page (offset + i + 1) &&& 0xFF) + 17) 0x20, i + 1 + 1)
  else if control_byte = 0x70 then
    Except.ok (List.replicate
      (end_of_first_byte * 256 + (pageGet page (offset + i + 1) &&& 0xFF) + 17) 0x00, i + 1 + 1)
  else if control_byte = 0x80 then
    let count_of_bytes_to_copy := min (end_of_first_byte + 1) (length - (i + 1))
    Except.ok (pageSlice page (offset + i + 1) (offset + i + 1 + count_of_bytes_to_copy),
      i + count_of_bytes_to_copy + 1)
  else if control_byte = 0x90 then
    let count_of_bytes_to_copy := min (end_of_first_byte + 17) (length - (i + 1))
    Except.ok (pageSlice page (offset + i + 1) (offset + i + 1 + count_of_bytes_to_copy),
      i + count_of_bytes_to_copy + 1)
  else if control_byte = 0xA0 then
    let count_of_bytes_to_copy := min (end_of_first_byte + 33) (length - (i + 1))
    Except.ok (pageSlice page (offset + i + 1) (offset + i + 1 + count_of_bytes_to_copy),
      i + count_of_bytes_to_copy + 1)
  else if control_byte = 0xB0 then
    let count_of_bytes_to_copy := min (end_of_first_byte + 49) (length - (i + 1))
    Except.ok (pageSlice page (offset + i + 1) (offset + i + 1 + count_of_bytes_to_copy),
      i + count_of_bytes_to_copy + 1)
  else if control_byte = 0xC0 then
    Except.ok (List.replicate (end_of_first_byte + 3) (pageGet page (offset + i + 1)), i + 1 + 1)
  else if control_byte = 0xD0 then
    Except.ok (List.replicate (end_of_first_byte + 2) 0x40, i + 1)
  else if control_byte = 0xE0 then
    Except.ok (List.replicate (end_of_first_byte + 2) 0x20, i + 1)
  else if control_byte = 0xF0 then
    Except.ok (List.replicate (end_of_first_byte + 2) 0x00, i + 1)
  else
    Except.error (RLEError.unknownControlByte control_byte)

/-- The `for (let j = 0; j < length; j++) if (i === j) ...` loop of
`decompress_row`: `js` is the list of remaining loop indices, `i` the cursor,
`acc` the bytes emitted so far. -/
def rleLoop (page : List Nat) (offset length : Nat) :
    List Nat → Nat → List Nat → Except RLEError (List Nat)
  | [], _, acc => Except.ok acc
  | j :: js, i, acc =>
    if i = j then
      match rleStep page offset length i with
      | Except.error e => Except.error e
      | Except.ok (out, i2) => rleLoop page offset length js i2 (acc ++ out)
    else
      rleLoop page offset length js i acc

/-- `RLEDecompressor.decompress_row(offset, length, result_length, page)`
(sas7bdat.js lines 134-242).  The final `Buffer.from(result.join(''), 'ascii')`
masks every emitted character code to a byte, and the function throws when the
result does not have exactly `result_length` bytes. -/
def decompress_row (offset length result_length : Nat) (page : List Nat) :
    Except RLEError (List Nat) :=
  match rleLoop page offset length (List.range length) 0 [] with
  | Except.error e => Except.error e
  | Except.ok r =>
    let result := r.map (· &&& 0xFF)
    if result.length = result_length then Except.ok result
    else Except.error (RLEError.lengthMismatch result.length result_length)

/-- The SAS epoch as a JavaScript timestamp:
`new Date('1960-01-01').getTime()` (sas7bdat.js line 36), in milliseconds
since the Unix epoch. -/
def epoch : Int := -315619200000

/-- The `units` argument of the `datetime` helper (sas7bdat.js line 37). -/
inductive TimeUnits
  | days
  | seconds
deriving DecidableEq, Repr

/-- The `output_format` argument of the `datetime` helper
(sas7bdat.js line 37). -/
inductive OutputFormat
  | datetime
  | date
  | time
deriving DecidableEq, Repr

/-- Left-pad the decimal rendering of `n` with zeros to `width` digits, as the
fixed-width fields of `Date.prototype.toISOString` do. -/
def padNum (width n : Nat) : String :=
  let s := toString n
  List.asString (List.replicate (width - s.length) '0') ++ s

/-- Civil date (year, month, day) of a count of days since 1970-01-01 in the
proleptic Gregorian calendar, as computed by the ECMAScript `Date` model. -/
def civilFromDays (z : Int) : Int × Nat × Nat :=
  let z2 := z + 719468
  let era : Int := (if 0 ≤ z2 then z2 else z2 - 146096) / 146097
  let doe : Nat := (z2 - era * 146097).toNat
  let yoe : Nat := (doe - doe / 1460 + doe / 36524 - doe / 146096) / 365
  let doy : Nat := doe - (365 * yoe + yoe / 4 - yoe / 100)
  let mp : Nat := (5 * doy + 2) / 153
  let d : Nat := doy - (153 * mp + 2) / 5 + 1
  let m : Nat := if mp < 10 then mp + 3 else mp - 9
  ((yoe : Int) + era * 400 + (if m ≤ 2 then 1 else 0), m, d)

/-- Year field of `Date.prototype.toISOString`: four digits for 0..9999,
otherwise the expanded signed six-digit form. -/
def yearRender (y : Int) : String :=
  if 0 ≤ y ∧ y ≤ 9999 then padNum 4 y.toNat
  else if y < 0 then "-" ++ padNum 6 (-y).toNat
  else "+" ++ padNum 6 y.toNat

/-- The string produced by `Date.prototype.toISOString` for a valid timestamp
of `ms` milliseconds since the Unix epoch (UTC). -/
def isoRender (ms : Int) : String :=
  let day := Int.fdiv ms 86400000
  let msod := (ms - day * 86400000).toNat
  let ymd := civilFromDays day
  yearRender ymd.1 ++ "-" ++ padNum 2 ymd.2.1 ++ "-" ++ padNum 2 ymd.2.2 ++ "T" ++
    padNum 2 (msod / 3600000) ++ ":" ++ padNum 2 (msod % 3600000 / 60000) ++ ":" ++
    padNum 2 (msod % 60000 / 1000) ++ "." ++ padNum 3 (msod % 1000) ++ "Z"

/-- `Date.prototype.toISOString` on `new Date(ms)`: throws a `RangeError` when
the timestamp is outside the ECMAScript time range of ±8.64e15 milliseconds
(the invalid-date case reached by the `try`/`catch` at sas7bdat.js
lines 637-643). -/
def toISOString (ms : Int) : Except Unit String :=
  if 8640000000000000 < ms.natAbs then Except.error ()
  else Except.ok (isoRender ms)

/-- The `datetime` helper (sas7bdat.js lines 37-56) with the default
`date_formatter` (the only formatter the claims exercise): convert days to
seconds if needed, build the Date at `epoch + offset_from_epoch * 1000`, and
slice its ISO string according to `output_format` ('date' keeps characters
0-10, 'time' keeps 11-23, 'datetime' keeps everything). -/
def datetime (offset_from_epoch : Int) (units : TimeUnits)
    (output_format : OutputFormat) : Except Unit String :=
  let offset := match units with
    | TimeUnits.days => offset_from_epoch * 24 * 60 * 60
    | TimeUnits.seconds => offset_from_epoch
  match toISOString (epoch + offset * 1000) with
  | Except.error e => Except.error e
  | Except.ok s =>
    Except.ok (match output_format with
      | OutputFormat.date => List.asString (s.toList.take 10)
      | OutputFormat.time => List.asString ((s.toList.drop 11).take 12)
      | OutputFormat.datetime => s)

/-- The value produced by `struct_unpack('<d', ...)`/`('>d', ...)` on an 8-byte
buffer, abstracted to its mathematically relevant outcome: NaN or a number
(the claims only exercise integral values, so the payload is an `Int`). -/
inductive JSDouble
  | nan
  | int (n : Int)
deriving DecidableEq, Repr

/-- A decoded cell value as produced by `SAS7BDAT._read_val`: the `null`
sentinel, a raw number, or a formatted date/time string. -/
inductive ReadValResult
  | null
  | num (n : Int)
  | str (s : String)
deriving DecidableEq, Repr

/-- The numeric dispatch target chosen by `_process_byte_array_with_data`
(sas7bdat.js lines 815-836) for a number column of length > 2. -/
inductive ReadFmt
  | number
  | time
  | datetime
  | date
deriving DecidableEq, Repr

/-- `this.TIME_FORMAT_STRINGS` (sas7bdat.js line 465), before any
`extraTimeFormatStrings` are appended. -/
def TIME_FORMAT_STRINGS : List String := ["TIME"]

/-- `this.DATE_TIME_FORMAT_STRINGS` (sas7bdat.js line 466). -/
def DATE_TIME_FORMAT_STRINGS : List String := ["DATETIME"]

/-- `this.DATE_FORMAT_STRINGS` (sas7bdat.js line 467). -/
def DATE_FORMAT_STRINGS : List String :=
  ["YYMMDD", "MMDDYY", "DDMMYY", "DATE", "JULIAN", "MONYY", "WEEKDATE"]

/-- The format-string dispatch of `_process_byte_array_with_data`
(sas7bdat.js lines 815-836): the empty format string (falsy `fmt`) and any
format outside the three configured sets decode as a plain number. -/
def select_read_fmt (fmt : String) : ReadFmt :=
  if fmt = "" then ReadFmt.number
  else if TIME_FORMAT_STRINGS.contains fmt then ReadFmt.time
  else if DATE_TIME_FORMAT_STRINGS.contains fmt then ReadFmt.datetime
  else if DATE_FORMAT_STRINGS.contains fmt then ReadFmt.date
  else ReadFmt.number

/-- The post-decode processing of `SAS7BDAT._read_val` for the numeric formats
(sas7bdat.js lines 627-646): NaN becomes `null` before any format-specific
conversion; `datetime`/`time` convert as seconds; `date` tries days and falls
back to seconds when the day interpretation throws. -/
def read_val_numeric (fmt : ReadFmt) (val : JSDouble) : Except Unit ReadValResult :=
  match val with
  | JSDouble.nan => Except.ok ReadValResult.null
  | JSDouble.int v =>
    match fmt with
    | ReadFmt.number => Except.ok (ReadValResult.num v)
    | ReadFmt.datetime =>
      Except.map ReadValResult.str (datetime v TimeUnits.seconds OutputFormat.datetime)
    | ReadFmt.time =>
      Except.map ReadValResult.str (datetime v TimeUnits.seconds OutputFormat.time)
    | ReadFmt.date =>
      match datetime v TimeUnits.days OutputFormat.date with
      | Except.ok s => Except.ok (ReadValResult.str s)
      | Except.error _ =>
        Except.map ReadValResult.str (datetime v TimeUnits.seconds OutputFormat.datetime)

/-- `this.endianess` of the reader, set to 'little' or 'big' while parsing the
header (sas7bdat.js line 1444). -/
inductive Endianess
  | little
  | big
deriving DecidableEq, Repr

/-- The byte buffer handed to the binary64 decode by `SAS7BDAT._read_val` for
the numeric formats (sas7bdat.js lines 604-621): the effective size is always
`raw_bytes.length` (line 606-608), and a buffer shorter than 8 bytes is padded
with zero bytes — prepended when the file is little-endian, appended when it
is big-endian. -/
def read_val_pad_bytes (endianess : Endianess) (raw_bytes : List Nat) : List Nat :=
  let size := raw_bytes.length
  if size < 8 then
    let bytes_new := List.replicate (8 - size) 0
    match endianess with
    | Endianess.little => bytes_new ++ raw_bytes
    | Endianess.big => raw_bytes ++ bytes_new
  else raw_bytes

/-- `this.PAGE_BIT_OFFSET_X86` (sas7bdat.js line 1373). -/
def PAGE_BIT_OFFSET_X86 : Nat := 16

/-- `this.PAGE_BIT_OFFSET_X64` (sas7bdat.js line 1374). -/
def PAGE_BIT_OFFSET_X64 : Nat := 32

/-- `this.SUBHEADER_POINTER_LENGTH_X86` (sas7bdat.js line 1375). -/
def SUBHEADER_POINTER_LENGTH_X86 : Nat := 12

/-- `this.SUBHEADER_POINTER_LENGTH_X64` (sas7bdat.js line 1376). -/
def SUBHEADER_POINTER_LENGTH_X64 : Nat := 24

/-- `this.SUBHEADER_POINTERS_OFFSET` (sas7bdat.js line 1392). -/
def SUBHEADER_POINTERS_OFFSET : Nat := 8

/-- The `PAGE_BIT_OFFSET` getter of `SASHeader` (sas7bdat.js lines 1531-1533). -/
def page_bit_offset (u64 : Bool) : Nat :=
  if u64 then PAGE_BIT_OFFSET_X64 else PAGE_BIT_OFFSET_X86

/-- The `SUBHEADER_POINTER_LENGTH` getter of `SASHeader`
(sas7bdat.js lines 1535-1537). -/
def subheader_pointer_length (u64 : Bool) : Nat :=
  if u64 then SUBHEADER_POINTER_LENGTH_X64 else SUBHEADER_POINTER_LENGTH_X86

/-- The `align_correction` computed by `SAS7BDAT.readline` for a MIX page
(sas7bdat.js lines 708-717): the pointer-array end modulo 8 when the
`alignCorrection` option is enabled, else 0. -/
def mix_align_correction (u64 align_correction_enabled : Bool)
    (subheaders_count : Nat) : Nat :=
  if align_correction_enabled then
    (page_bit_offset u64 + SUBHEADER_POINTERS_OFFSET +
      subheaders_count * subheader_pointer_length u64) % 8
  else 0

/-- The byte offset at which `SAS7BDAT.readline` reads row `row_index` of a
MIX page (sas7bdat.js lines 718-723). -/
def mix_row_offset (u64 align_correction_enabled : Bool)
    (subheaders_count row_index row_length : Nat) : Nat :=
  page_bit_offset u64 + SUBHEADER_POINTERS_OFFSET +
    mix_align_correction u64 align_correction_enabled subheaders_count +
    subheaders_count * subheader_pointer_length u64 + row_index * row_length

/-- The MIX-page row offset as the specification words it: read row k at
`PAGE_BIT_OFFSET + 8 + align_correction + subheader_count * ptr_len +
k * row_length` with `align_correction = (PAGE_BIT_OFFSET + 8 +
subheader_count * ptr_len) mod 8` when enabled, else 0.  Stated from the
spec's sentence, to be compared with `mix_row_offset` from the source. -/
def spec_mix_row_offset (u64 align_correction_enabled : Bool)
    (subheaders_count row_index row_length : Nat) : Nat :=
  page_bit_offset u64 + 8 +
    (if align_correction_enabled then
      (page_bit_offset u64 + 8 + subheaders_count * subheader_pointer_length u64) % 8
    else 0) +
    subheaders_count * subheader_pointer_length u64 + row_index * row_length

/-- A row as returned by `SAS7BDAT.readline`: an ordered array of values, or
an object keyed by decoded column name. -/
inductive Row (α : Type)
  | arr (vals : List α)
  | obj (pairs : List (String × α))
deriving DecidableEq, Repr

/-- The return shaping at the end of `SAS7BDAT.readline`
(sas7bdat.js lines 754-760): when `this.row_format === 'object'`, fold the
row into an object keyed by `column_names_strings_decoded[i]` (a JavaScript
object key that is `undefined` prints as the string "undefined"); for every
other `row_format` value return the array unchanged. -/
def readline_row_result {α : Type} (row_format : String)
    (column_names_strings_decoded : List String) (current_row : List α) : Row α :=
  if row_format = "object" then
    Row.obj (current_row.enum.map fun p =>
      (column_names_strings_decoded.getD p.1 "undefined", p.2))
  else Row.arr current_row

/-- The header-row condition of `SAS7BDAT.readline` (sas7bdat.js lines
675-678): the decoded column names are returned as an initial row exactly when
the header was not skipped, not yet sent, and `row_format` is 'array'. -/
def readline_header_row (skip_header sent_header : Bool) (row_format : String)
    (column_names_strings_decoded : List String) : Option (List String) :=
  if !skip_header && !sent_header && (row_format == "array") then
    some column_names_strings_decoded
  else none

/-- `this.RLE_COMPRESSION` (sas7bdat.js line 456). -/
def RLE_COMPRESSION : String := "SASYZCRL"

/-- `this.RDC_COMPRESSION` (sas7bdat.js line 458). -/
def RDC_COMPRESSION : String := "SASYZCR2"

/-- Errors raised while obtaining the byte source of a row in
`_process_byte_array_with_data`. -/
inductive DecompressionError
  | notImplemented
  | noDecompressor
  | rle (e : RLEError)
deriving DecidableEq, Repr

/-- The source-selection prologue of `SAS7BDAT._process_byte_array_with_data`
(sas7bdat.js lines 788-800): when compression is set and the physical record
is shorter than `row_length`, dispatch to the decompressor selected by
`this.DECOMPRESSORS` and slice columns from the decompressed buffer at offset
0; the `RDCDecompressor` constructor (lines 247-251) unconditionally throws
`NotImplementedError`, modelled by `DecompressionError.notImplemented`.
Returns the buffer from which columns are sliced and the base offset. -/
def decompressed_source (compression : Option String)
    (offset length row_length : Nat) (page : List Nat) :
    Except DecompressionError (List Nat × Nat) :=
  match compression with
  | none => Except.ok (page, offset)
  | some comp =>
    if length < row_length then
      if comp = RLE_COMPRESSION then
        match decompress_row offset length row_length page with
        | Except.ok buf => Except.ok (buf, 0)
        | Except.error e => Except.error (DecompressionError.rle e)
      else if comp = RDC_COMPRESSION then
        Except.error DecompressionError.notImplemented
      else Except.error DecompressionError.noDecompressor
    else Except.ok (page, offset)

/-- C1: amended.  The RLE decompressor's 0xC0 record emits `lo + 3` copies of
the byte at `pos + 1` and advances the input cursor by 2 bytes (not 3 as the
spec's `2 + 1` advance column states), and the 0xD0/0xE0/0xF0 records emit
`lo + 2` copies of 0x40/0x20/0x00 respectively and advance the cursor by 1
byte (not 2 as the spec's `1 + 1` states). -/
theorem rle_short_repeat_fill_step (page : List Nat) (offset length i : Nat) :
    (pageGet page (offset + i) &&& 0xF0 = 0xC0 →
      rleStep page offset length i = Except.ok
        (List.replicate ((pageGet page (offset + i) &&& 0x0F) + 3)
          (pageGet page (offset + i + 1)), i + 2)) ∧
    (pageGet page (offset + i) &&& 0xF0 = 0xD0 →
      rleStep page offset length i = Except.ok
        (List.replicate ((pageGet page (offset + i) &&& 0x0F) + 2) 0x40, i + 1)) ∧
    (pageGet page (offset + i) &&& 0xF0 = 0xE0 →
      rleStep page offset length i = Except.ok
        (List.replicate ((pageGet page (offset + i) &&& 0x0F) + 2) 0x20, i + 1)) ∧
    (pageGet page (offset + i) &&& 0xF0 = 0xF0 →
      rleStep page offset length i = Except.ok
        (List.replicate ((pageGet page (offset + i) &&& 0x0F) + 2) 0x00, i + 1)) := by
  refine ⟨fun h => ?_, fun h => ?_, fun h => ?_, fun h => ?_⟩ <;>
    simp [rleStep, h]

/-- C1: witness.  `rle_short_repeat_fill_step` evaluated on one concrete
record of each family. -/
theorem rle_short_repeat_fill_step_witness :
    rleStep [0xC5, 9] 0 9 0 = Except.ok (List.replicate 8 9, 2) ∧
    rleStep [0xD1] 0 9 0 = Except.ok (List.replicate 3 0x40, 1) ∧
    rleStep [0xE2] 0 9 0 = Except.ok (List.replicate 4 0x20, 1) ∧
    rleStep [0xF0] 0 9 0 = Except.ok (List.replicate 2 0x00, 1) :=
  ⟨(rle_short_repeat_fill_step [0xC5, 9] 0 9 0).1 (by decide),
   (rle_short_repeat_fill_step [0xD1] 0 9 0).2.1 (by decide),
   (rle_short_repeat_fill_step [0xE2] 0 9 0).2.2.1 (by decide),
   (rle_short_repeat_fill_step [0xF0] 0 9 0).2.2.2 (by decide)⟩

/-- C1: counterexample.  Read literally, the spec's advance column gives
`2 + 1 = 3` for 0xC0 and `1 + 1 = 2` for 0xD0; the code advances by 2 and by 1
respectively, so the claimed step results (with the emitted bytes exactly as
the claim states them) are wrong about the new cursor position. -/
theorem rle_short_repeat_fill_table_cex :
    ¬ (rleStep [0xC5, 9] 0 9 0 = Except.ok (List.replicate 8 9, 3)) ∧
    ¬ (rleStep [0xD1] 0 9 0 = Except.ok (List.replicate 3 0x40, 2)) := by decide

/-- C2: amended.  The spec's round-trip stream carries a skipped filler byte
after each of 0xE0 and 0xF0, but those records advance the cursor only past
the control byte itself; the stream that actually decompresses to
`0x20 0x20 'X' 'X' 'X' 0x00 0x00` is the four-byte `[0xE0, 0xC0, 'X', 0xF0]`. -/
theorem rle_roundtrip_four_byte :
    decompress_row 0 4 7 [0xE0, 0xC0, 88, 0xF0] =
      Except.ok [32, 32, 88, 88, 88, 0, 0] := by decide

/-- C2: counterexample.  The claim's six-byte stream `[0xE0, _, 0xC0, 'X',
0xF0, _]`, instantiated with 0x00 for the don't-care bytes, does not return
the seven claimed bytes: the byte after 0xE0 is treated as the next control
byte (a long copy), and decompression fails with a length mismatch. -/
theorem rle_roundtrip_six_byte_cex :
    decompress_row 0 6 7 [0xE0, 0, 0xC0, 88, 0xF0, 0] =
      Except.error (RLEError.lengthMismatch 5 7) ∧
    decompress_row 0 6 7 [0xE0, 0, 0xC0, 88, 0xF0, 0] ≠
      Except.ok [32, 32, 88, 88, 88, 0, 0] := by decide

/-- C3: amended.  A control byte whose high nibble is not one of the twelve
defined operations yields an `unknownControlByte` error; whenever
`decompress_row` returns a buffer it has exactly `result_length` bytes; and a
stream whose records emit too few bytes fails with a length mismatch (the
concrete truncated stream `[0x82]` against an expected 8 bytes). -/
theorem rle_error_handling :
    (∀ page offset length i,
      (pageGet page (offset + i) &&& 0xF0) ∉
        ([0x00, 0x40, 0x60, 0x70, 0x80, 0x90, 0xA0, 0xB0, 0xC0, 0xD0, 0xE0, 0xF0] :
          List Nat) →
      rleStep page offset length i =
        Except.error (RLEError.unknownControlByte (pageGet page (offset + i) &&& 0xF0))) ∧
    (∀ offset length result_length page r,
      decompress_row offset length result_length page = Except.ok r →
      r.length = result_length) ∧
    decompress_row 0 1 8 [0x82] = Except.error (RLEError.lengthMismatch 0 8) := by
  refine ⟨?_, ?_, by decide⟩
  · intro page offset length i h
    simp only [List.mem_cons, List.not_mem_nil, or_false, not_or] at h
    obtain ⟨h0, h4, h6, h7, h8, h9, ha, hb, hc, hd, he, hf⟩ := h
    simp [rleStep, h0, h4, h6, h7, h8, h9, ha, hb, hc, hd, he, hf]
  · intro offset length result_length page r h
    unfold decompress_row at h
    cases hE : rleLoop page offset length (List.range length) 0 [] with
    | error e => rw [hE] at h; exact Except.noConfusion h
    | ok r0 =>
      rw [hE] at h
      dsimp only at h
      split at h
      · next hlen => injection h with h2; subst h2; exact hlen
      · next => exact Except.noConfusion h

/-- C3: witness.  `rle_error_handling` evaluated on an undefined control byte
(high nibble 0x10) and on a record stream that decompresses successfully. -/
theorem rle_error_handling_witness :
    rleStep [0x15] 0 1 0 = Except.error (RLEError.unknownControlByte 0x10) ∧
    ([0, 0] : List Nat).length = 2 :=
  ⟨rle_error_handling.1 [0x15] 0 1 0 (by decide),
   rle_error_handling.2.1 0 1 2 [0xF0] [0, 0] (by decide)⟩

/-- C3: counterexample.  A stream ending mid-record does not always fail: the
one-byte stream `[0xC0]` ends before the repeated byte of its 0xC0 record, yet
decompression succeeds with result_length 3, because the out-of-range read of
the missing byte is coerced to 0 (the claim says such a stream fails with a
length-mismatch error). -/
theorem rle_truncated_record_success_cex :
    decompress_row 0 1 3 [0xC0] = Except.ok [0, 0, 0] := by decide

/-- C4: amended.  A numeric field shorter than 8 bytes is zero-padded before
the binary64 decode, with the padding on the left when the file is
little-endian and on the right when it is big-endian — the opposite sides of
what the claim states. -/
theorem read_double_padding_side (raw_bytes : List Nat) (h : raw_bytes.length < 8) :
    read_val_pad_bytes Endianess.little raw_bytes =
      List.replicate (8 - raw_bytes.length) 0 ++ raw_bytes ∧
    read_val_pad_bytes Endianess.big raw_bytes =
      raw_bytes ++ List.replicate (8 - raw_bytes.length) 0 := by
  constructor <;> simp [read_val_pad_bytes, h]

/-- C4: witness.  `read_double_padding_side` evaluated on a 3-byte field. -/
theorem read_double_padding_side_witness :
    ([1, 2, 3] : List Nat).length < 8 ∧
    (read_val_pad_bytes Endianess.little [1, 2, 3] =
      List.replicate (8 - ([1, 2, 3] : List Nat).length) 0 ++ [1, 2, 3] ∧
    read_val_pad_bytes Endianess.big [1, 2, 3] =
      [1, 2, 3] ++ List.replicate (8 - ([1, 2, 3] : List Nat).length) 0) :=
  ⟨by decide, read_double_padding_side [1, 2, 3] (by decide)⟩

/-- C4: counterexample.  For the little-endian 3-byte field `[1, 2, 3]` the
zero padding goes on the left, not on the right as the claim states (and
symmetrically for big-endian). -/
theorem read_double_padding_side_cex :
    read_val_pad_bytes Endianess.little [1, 2, 3] = List.replicate 5 0 ++ [1, 2, 3] ∧
    read_val_pad_bytes Endianess.little [1, 2, 3] ≠ [1, 2, 3] ++ List.replicate 5 0 ∧
    read_val_pad_bytes Endianess.big [1, 2, 3] ≠ List.replicate 5 0 ++ [1, 2, 3] := by
  decide

/-- C5: confirmed.  Whatever the column's format string selects (number, time,
datetime or date), a raw double that decodes to NaN is emitted as the null
sentinel: the NaN check of `_read_val` precedes the format dispatch. -/
theorem nan_yields_null (format_string : String) :
    read_val_numeric (select_read_fmt format_string) JSDouble.nan =
      Except.ok ReadValResult.null := by
  cases h : select_read_fmt format_string <;> rfl

/-- C6: confirmed.  For a date-formatted column whose raw value is not a valid
date-as-days (the days interpretation throws a RangeError), decoding does not
propagate the failure: the produced value is exactly the datetime-as-seconds
decoder's result.  The witness evaluates the scenario value 1893456000, which
renders as the ISO-8601 string "2020-01-01T00:00:00.000Z". -/
theorem date_fallback_to_datetime (val : Int)
    (h : datetime val TimeUnits.days OutputFormat.date = Except.error ()) :
    read_val_numeric ReadFmt.date (JSDouble.int val) =
      Except.map ReadValResult.str (datetime val TimeUnits.seconds OutputFormat.datetime) := by
  simp [read_val_numeric, h]

/-- C6: witness.  The date value 1893456000 overflows as days, falls back to
the seconds decoder, and renders as "2020-01-01T00:00:00.000Z". -/
theorem date_fallback_to_datetime_witness :
    datetime 1893456000 TimeUnits.days OutputFormat.date = Except.error () ∧
    read_val_numeric ReadFmt.date (JSDouble.int 1893456000) =
      Except.map ReadValResult.str
        (datetime 1893456000 TimeUnits.seconds OutputFormat.datetime) ∧
    datetime 1893456000 TimeUnits.seconds OutputFormat.datetime =
      Except.ok "2020-01-01T00:00:00.000Z" :=
  ⟨by decide, date_fallback_to_datetime 1893456000 (by decide), by decide⟩

/-- C7: confirmed.  The k-th row of a MIX page is read at
`PAGE_BIT_OFFSET + 8 + align_correction + subheader_count * ptr_len +
k * row_length`, with `align_correction = (PAGE_BIT_OFFSET + 8 +
subheader_count * ptr_len) mod 8` when the option is enabled and 0 otherwise:
the offset computed by `readline` equals the spec's formula for every layout,
option value, subheader count, row index and row length. -/
theorem mix_page_row_offset_spec (u64 align_correction_enabled : Bool)
    (subheaders_count row_index row_length : Nat) :
    mix_row_offset u64 align_correction_enabled subheaders_count row_index row_length =
      spec_mix_row_offset u64 align_correction_enabled subheaders_count row_index
        row_length := by
  cases align_correction_enabled <;>
    simp [mix_row_offset, spec_mix_row_offset, mix_align_correction,
      SUBHEADER_POINTERS_OFFSET]

/-- C8: amended.  The column-name-keyed row shape is selected by the
`row_format` value 'object', not 'map': with `row_format === 'object'` the row
is the name-keyed object, and with any other value — including 'map' — the
ordered array is returned. -/
theorem row_format_object_map {α : Type} (column_names : List String) (row : List α) :
    readline_row_result "object" column_names row =
      Row.obj (row.enum.map fun p => (column_names.getD p.1 "undefined", p.2)) ∧
    readline_row_result "map" column_names row = Row.arr row := by
  constructor <;> rfl

/-- C8: counterexample.  A reader constructed with `row_format` set to 'map'
returns the ordered array, not the column-name-keyed map the claim states. -/
theorem row_format_map_cex :
    readline_row_result "map" ["a"] [(0 : Nat)] = Row.arr [0] ∧
    readline_row_result "map" ["a"] [(0 : Nat)] ≠ Row.obj [("a", 0)] := by decide

/-- C9: confirmed.  The initial header row of column names is produced only
when `row_format` is exactly 'array': for any other value no header row is
returned, even when the header is not skipped. -/
theorem header_row_only_for_array (skip_header sent_header : Bool)
    (row_format : String) (column_names_strings_decoded : List String)
    (h : row_format ≠ "array") :
    readline_header_row skip_header sent_header row_format
      column_names_strings_decoded = none := by
  simp [readline_header_row, h]

/-- C9: witness.  With `row_format` 'object' and the header neither skipped
nor sent, no header row is produced. -/
theorem header_row_only_for_array_witness :
    readline_header_row false false "object" ["id", "name"] = none :=
  header_row_only_for_array false false "object" ["id", "name"] (by decide)

/-- C10: confirmed.  For a file whose compression literal is 'SASYZCR2' (Ross
Data Compression), decoding any row whose physical length is less than
`row_length` fails with the `NotImplementedError` thrown by the
`RDCDecompressor` constructor, so no RDC-compressed row is ever produced. -/
theorem rdc_decompression_not_implemented (offset length row_length : Nat)
    (page : List Nat) (h : length < row_length) :
    decompressed_source (some RDC_COMPRESSION) offset length row_length page =
      Except.error DecompressionError.notImplemented := by
  simp [decompressed_source, h, RDC_COMPRESSION, RLE_COMPRESSION]

/-- C10: witness.  A zero-length physical record against `row_length` 8 under
RDC compression fails with the not-implemented error. -/
theorem rdc_decompression_not_implemented_witness :
    (0 : Nat) < 8 ∧
    decompressed_source (some RDC_COMPRESSION) 0 0 8 [] =
      Except.error DecompressionError.notImplemented :=
  ⟨by decide, rdc_decompression_not_implemented 0 0 8 [] (by decide)⟩

end Sas7bdat
